import Mathlib

/-!
Shallow embedding of the waveform visualiser (src/main.py).

The program keeps four waveform specifications (a mutable dictionary of
frequency, amplitude, offset, speed and enabled flag per waveform), a shared
sample grid `t` of evenly spaced rationals in [0,1], a per-waveform phase
accumulator, a nullable last-frame timestamp, a rebuilding guard, and the
render-bound Y buffers.  The per-frame `update` advances phases by
dt * speed and rewrites the Y buffers; `_rebuild_with_points` replaces the
grid; the UI performs parameter mutation and the two reset operations.

Control state (parameters, phases, timestamps, grid) is modelled over ℚ,
matching the exact arithmetic the spec describes; waveform evaluation is
modelled over ℝ since the closed-form rules use sin, arcsin, sign and floor.
A possible render-buffer write failure in `update` is modelled by a
`fails : WaveName → Bool` oracle, and a possible mid-rebuild error in
`_create_or_recreate_lines` by a `midFails : Bool` flag.
-/

/-- The four waveform kinds, the keys of the WAVEFORMS dictionary. -/
inductive WaveName
  | Sine
  | Square
  | Triangle
  | Sawtooth
deriving DecidableEq

/-- Iteration order of the WAVEFORMS dictionary (Python dicts preserve
insertion order), used by the per-frame update loop. -/
def waveNames : List WaveName :=
  [WaveName.Sine, WaveName.Square, WaveName.Triangle, WaveName.Sawtooth]

/-- The mutable per-waveform entries of the WAVEFORMS dictionary. -/
structure WaveParams where
  freq : ℚ
  amplitude : ℚ
  offset : ℚ
  speed_hz : ℚ
  enabled : Bool
deriving DecidableEq

/-- defaults["freq"] = 5.0 -/
def defaultFreq : ℚ := 5

/-- defaults["amplitude"] = 5.0 -/
def defaultAmplitude : ℚ := 5

/-- defaults["speed_hz"] = 0.5 -/
def defaultSpeedHz : ℚ := 1 / 2

/-- defaults["n_points"] = 10_000 -/
def defaultNPoints : Nat := 10000

/-- Per-waveform fixed vertical offsets from the WAVEFORMS dictionary. -/
def initOffset : WaveName → ℚ
  | WaveName.Sine => 0
  | WaveName.Square => 20
  | WaveName.Triangle => 40
  | WaveName.Sawtooth => 60

/-- The initial per-waveform parameters; `waveform_defaults` in the source
records exactly the freq/amplitude/offset/speed_hz part of these, and every
reset also sets `enabled = True`, so the reset target is this full record. -/
def waveformDefaults (n : WaveName) : WaveParams :=
  { freq := defaultFreq
    amplitude := defaultAmplitude
    offset := initOffset n
    speed_hz := defaultSpeedHz
    enabled := true }

/-- The closed-form evaluation rule of each waveform ("func" in WAVEFORMS):
Sine `a*sin(2πft)`, Square `a*sign(sin(2πft))`, Triangle
`a*2*arcsin(sin(2πft))/π`, Sawtooth `a*2*(t*f - floor(0.5 + t*f))`. -/
noncomputable def evalRule : WaveName → ℝ → ℝ → ℝ → ℝ
  | WaveName.Sine, f, a, t => a * Real.sin (2 * Real.pi * f * t)
  | WaveName.Square, f, a, t => a * Real.sign (Real.sin (2 * Real.pi * f * t))
  | WaveName.Triangle, f, a, t => a * 2 * Real.arcsin (Real.sin (2 * Real.pi * f * t)) / Real.pi
  | WaveName.Sawtooth, f, a, t => a * 2 * (t * f - ((Int.floor (0.5 + t * f) : ℤ) : ℝ))

/-- Elementwise waveform evaluation over a grid, as in `create_waveforms`:
`func(t + phase, freq, amplitude) + offset` applied to each grid point. -/
noncomputable def evaluate (k : WaveName) (f a off : ℝ) (grid : List ℝ) (phase : ℝ) : List ℝ :=
  grid.map (fun x => evalRule k f a (x + phase) + off)

/-- The Y values computed for one waveform from the current parameters,
phases and grid (the body of `create_waveforms` and of the per-frame
recomputation in `update`). -/
noncomputable def computeY (params : WaveName → WaveParams) (phases : WaveName → ℚ)
    (grid : List ℚ) (n : WaveName) : List ℝ :=
  evaluate n ((params n).freq : ℝ) ((params n).amplitude : ℝ) ((params n).offset : ℝ)
    (grid.map (fun x => (x : ℝ))) ((phases n : ℝ))

/-- The shared module-level state of main.py: the WAVEFORMS dictionary, the
phase accumulators `_phases`, the sample grid `t`, `_current_n_points`,
`_last_time`, the `_is_rebuilding` guard, the render-bound Y buffers
`_line_y_buffers`, and each line's visibility flag. -/
structure AppState where
  params : WaveName → WaveParams
  phases : WaveName → ℚ
  t : List ℚ
  currentNPoints : Nat
  lastTime : Option ℚ
  isRebuilding : Bool
  lineYBuffers : WaveName → List ℝ
  lineVisible : WaveName → Bool

/-- `cp.linspace(0, 1, n)`: n evenly spaced values from 0 to 1 inclusive. -/
def linspace (n : Nat) : List ℚ :=
  (List.range n).map (fun i : Nat => (i : ℚ) / ((n : ℚ) - 1))

/-- `_create_or_recreate_lines`: recreates every line and Y buffer from the
current parameters, phases and grid, and applies the enabled flags to the
line visibilities.  Parameters, phases, grid, point count, timestamp and
guard are untouched. -/
noncomputable def createOrRecreateLines (s : AppState) : AppState :=
  { s with
    lineYBuffers := fun n => computeY s.params s.phases s.t n
    lineVisible := fun n => (s.params n).enabled }

/-- The state in the middle of `_rebuild_with_points`, after the guard is
set and the point count and grid are replaced, before line recreation. -/
def rebuildIntermediate (newN : Nat) (s : AppState) : AppState :=
  { s with
    isRebuilding := true
    currentNPoints := newN
    t := linspace newN }

/-- `_rebuild_with_points(new_n_points)`: clamps to a minimum of 2, returns
unchanged when the clamped count equals the current one, otherwise sets the
guard, replaces count and grid, recreates the lines, and clears the guard in
a `finally` block.  `midFails = true` models `_create_or_recreate_lines`
raising mid-rebuild: the exception propagates (second component `false`) but
the guard is still cleared.  Returns (state, completed normally). -/
noncomputable def rebuildWithPoints (newN0 : Int) (midFails : Bool) (s : AppState) :
    AppState × Bool :=
  let newN := max 2 newN0
  if newN = (s.currentNPoints : Int) then (s, true)
  else
    let s1 := rebuildIntermediate newN.toNat s
    let s2 := if midFails then s1 else createOrRecreateLines s1
    ({ s2 with isRebuilding := false }, !midFails)

/-- One iteration of the per-frame loop in `update` for waveform `n`:
skip if disabled; otherwise advance the phase by dt * speed_hz, recompute
the Y values, and write them to the render buffer unless the write raises
(`fails n`), in which case the exception is caught and only the buffer
write is skipped — the phase advance has already happened. -/
noncomputable def updateOne (dt : ℚ) (fails : WaveName → Bool) (s : AppState) (n : WaveName) :
    AppState :=
  if (s.params n).enabled = false then s
  else
    let s1 := { s with phases := Function.update s.phases n (s.phases n + dt * (s.params n).speed_hz) }
    if fails n then s1
    else { s1 with lineYBuffers := Function.update s1.lineYBuffers n (computeY s1.params s1.phases s1.t n) }

/-- The per-frame animation callback `update(subplot)` at wall-clock time
`now`: drop the frame if rebuilding; if `_last_time` is null, record `now`
and return; otherwise compute dt, record `now`, and run the per-waveform
loop. -/
noncomputable def update (now : ℚ) (fails : WaveName → Bool) (s : AppState) : AppState :=
  if s.isRebuilding then s
  else
    match s.lastTime with
    | none => { s with lastTime := some now }
    | some last => waveNames.foldl (updateOne (now - last) fails) { s with lastTime := some now }

/-- The parameter a UI slider or input field writes. -/
inductive ParamField
  | freq
  | amplitude
  | offset
  | speedHz
deriving DecidableEq

/-- Write one field of a WaveParams record. -/
def setField (p : WaveParams) : ParamField → ℚ → WaveParams
  | ParamField.freq, v => { p with freq := v }
  | ParamField.amplitude, v => { p with amplitude := v }
  | ParamField.offset, v => { p with offset := v }
  | ParamField.speedHz, v => { p with speed_hz := v }

/-- UI parameter mutation: a slider or text input writes one parameter of
one waveform (the amplitude/frequency/offset/speed widgets). -/
def setParam (n : WaveName) (fld : ParamField) (v : ℚ) (s : AppState) : AppState :=
  { s with params := Function.update s.params n (setField (s.params n) fld v) }

/-- UI enabled checkbox: writes the enabled flag and the line visibility. -/
def setEnabled (n : WaveName) (b : Bool) (s : AppState) : AppState :=
  { s with
    params := Function.update s.params n { s.params n with enabled := b }
    lineVisible := Function.update s.lineVisible n b }

/-- The per-waveform "Reset" button: restores that waveform's recorded
defaults, sets enabled (and the line visibility) to true, zeroes its phase,
and nulls `_last_time`. -/
def resetWaveform (n : WaveName) (s : AppState) : AppState :=
  { s with
    params := Function.update s.params n (waveformDefaults n)
    lineVisible := Function.update s.lineVisible n true
    phases := Function.update s.phases n 0
    lastTime := none }

/-- The global "Reset All" button: restores every waveform's defaults, sets
every enabled flag and visibility to true, zeroes all phases, nulls
`_last_time`, and then rebuilds with the default point count. -/
noncomputable def resetAll (midFails : Bool) (s : AppState) : AppState × Bool :=
  let s1 : AppState :=
    { s with
      params := fun n => waveformDefaults n
      lineVisible := fun _ => true
      phases := fun _ => 0
      lastTime := none }
  rebuildWithPoints (defaultNPoints : Int) midFails s1

/-- The module-level startup sequence: default parameters, zero phases, the
default grid, null timestamp, clear guard, then `_create_or_recreate_lines`. -/
noncomputable def initState : AppState :=
  createOrRecreateLines
    { params := waveformDefaults
      phases := fun _ => 0
      t := linspace defaultNPoints
      currentNPoints := defaultNPoints
      lastTime := none
      isRebuilding := false
      lineYBuffers := fun _ => []
      lineVisible := fun _ => true }

/-- A small concrete state used to instantiate theorems: default parameters,
zero phases, a 4-point grid, timestamp recorded at 0. -/
def sampleState : AppState :=
  { params := waveformDefaults
    phases := fun _ => 0
    t := linspace 4
    currentNPoints := 4
    lastTime := some 0
    isRebuilding := false
    lineYBuffers := fun _ => []
    lineVisible := fun _ => true }

/-- The grid/point-count invariant: the grid has exactly `currentNPoints`
elements, the count is at least 2, the first element is 0, the last is 1,
consecutive elements increase by the constant step 1/(count-1), and the
grid is strictly increasing. -/
def gridInvariant (s : AppState) : Prop :=
  s.t.length = s.currentNPoints ∧
  2 ≤ s.currentNPoints ∧
  s.t.getD 0 0 = 0 ∧
  s.t.getD (s.currentNPoints - 1) 0 = 1 ∧
  s.t.Chain' (fun a b => b - a = 1 / ((s.currentNPoints : ℚ) - 1)) ∧
  s.t.Pairwise (fun a b => a < b)

instance gridInvariantDecidable (s : AppState) : Decidable (gridInvariant s) := by
  unfold gridInvariant
  infer_instance

/-! Helper lemmas about the per-frame loop. -/

@[simp]
theorem updateOne_params (dt : ℚ) (fails : WaveName → Bool) (s : AppState) (m : WaveName) :
    (updateOne dt fails s m).params = s.params := by
  unfold updateOne
  split
  · rfl
  · split <;> rfl

@[simp]
theorem updateOne_t (dt : ℚ) (fails : WaveName → Bool) (s : AppState) (m : WaveName) :
    (updateOne dt fails s m).t = s.t := by
  unfold updateOne
  split
  · rfl
  · split <;> rfl

@[simp]
theorem updateOne_currentNPoints (dt : ℚ) (fails : WaveName → Bool) (s : AppState) (m : WaveName) :
    (updateOne dt fails s m).currentNPoints = s.currentNPoints := by
  unfold updateOne
  split
  · rfl
  · split <;> rfl

@[simp]
theorem updateOne_lastTime (dt : ℚ) (fails : WaveName → Bool) (s : AppState) (m : WaveName) :
    (updateOne dt fails s m).lastTime = s.lastTime := by
  unfold updateOne
  split
  · rfl
  · split <;> rfl

@[simp]
theorem updateOne_isRebuilding (dt : ℚ) (fails : WaveName → Bool) (s : AppState) (m : WaveName) :
    (updateOne dt fails s m).isRebuilding = s.isRebuilding := by
  unfold updateOne
  split
  · rfl
  · split <;> rfl

@[simp]
theorem updateOne_lineVisible (dt : ℚ) (fails : WaveName → Bool) (s : AppState) (m : WaveName) :
    (updateOne dt fails s m).lineVisible = s.lineVisible := by
  unfold updateOne
  split
  · rfl
  · split <;> rfl

@[simp]
theorem updateOne_phases (dt : ℚ) (fails : WaveName → Bool) (s : AppState) (m n : WaveName) :
    (updateOne dt fails s m).phases n =
      if (s.params m).enabled = true then
        (if n = m then s.phases m + dt * (s.params m).speed_hz else s.phases n)
      else s.phases n := by
  unfold updateOne
  split
  · rename_i h
    rw [h]
    simp
  · rename_i h
    have he : (s.params m).enabled = true := by
      cases hb : (s.params m).enabled
      · exact absurd hb h
      · rfl
    rw [he]
    split <;> simp [Function.update_apply]

theorem updateOne_buffers_of_failed (dt : ℚ) (fails : WaveName → Bool) (s : AppState)
    (m n : WaveName) (h : m ≠ n ∨ fails m = true) :
    (updateOne dt fails s m).lineYBuffers n = s.lineYBuffers n := by
  unfold updateOne
  split
  · rfl
  · split
    · rfl
    · rename_i hf
      rcases h with h | h
      · show Function.update _ m _ n = _
        rw [Function.update_apply, if_neg (fun hh : n = m => h hh.symm)]
      · exact absurd h hf

theorem foldl_updateOne_params (dt : ℚ) (fails : WaveName → Bool) (l : List WaveName)
    (s : AppState) : (l.foldl (updateOne dt fails) s).params = s.params := by
  induction l generalizing s with
  | nil => rfl
  | cons m l ih => simp [List.foldl_cons, ih]

theorem foldl_updateOne_t (dt : ℚ) (fails : WaveName → Bool) (l : List WaveName)
    (s : AppState) : (l.foldl (updateOne dt fails) s).t = s.t := by
  induction l generalizing s with
  | nil => rfl
  | cons m l ih => simp [List.foldl_cons, ih]

theorem foldl_updateOne_currentNPoints (dt : ℚ) (fails : WaveName → Bool) (l : List WaveName)
    (s : AppState) : (l.foldl (updateOne dt fails) s).currentNPoints = s.currentNPoints := by
  induction l generalizing s with
  | nil => rfl
  | cons m l ih => simp [List.foldl_cons, ih]

theorem foldl_updateOne_lastTime (dt : ℚ) (fails : WaveName → Bool) (l : List WaveName)
    (s : AppState) : (l.foldl (updateOne dt fails) s).lastTime = s.lastTime := by
  induction l generalizing s with
  | nil => rfl
  | cons m l ih => simp [List.foldl_cons, ih]

theorem foldl_updateOne_buffers (dt : ℚ) (fails : WaveName → Bool) (l : List WaveName)
    (s : AppState) (n : WaveName) (h : ∀ m ∈ l, m ≠ n ∨ fails m = true) :
    (l.foldl (updateOne dt fails) s).lineYBuffers n = s.lineYBuffers n := by
  induction l generalizing s with
  | nil => rfl
  | cons m l ih =>
    rw [List.foldl_cons, ih _ (fun m2 hm => h m2 (List.mem_cons_of_mem _ hm)),
      updateOne_buffers_of_failed _ _ _ _ _ (h m (List.mem_cons_self _ _))]

theorem update_of_isRebuilding (now : ℚ) (fails : WaveName → Bool) (s : AppState)
    (hg : s.isRebuilding = true) : update now fails s = s := by
  simp [update, hg]

theorem update_params (now : ℚ) (fails : WaveName → Bool) (s : AppState) :
    (update now fails s).params = s.params := by
  unfold update
  split
  · rfl
  · cases hl : s.lastTime with
    | none => rfl
    | some last =>
      rw [foldl_updateOne_params]

theorem update_t (now : ℚ) (fails : WaveName → Bool) (s : AppState) :
    (update now fails s).t = s.t := by
  unfold update
  split
  · rfl
  · cases hl : s.lastTime with
    | none => rfl
    | some last =>
      rw [foldl_updateOne_t]

theorem update_currentNPoints (now : ℚ) (fails : WaveName → Bool) (s : AppState) :
    (update now fails s).currentNPoints = s.currentNPoints := by
  unfold update
  split
  · rfl
  · cases hl : s.lastTime with
    | none => rfl
    | some last =>
      rw [foldl_updateOne_currentNPoints]

theorem update_lastTime_some (now : ℚ) (fails : WaveName → Bool) (s : AppState)
    (hg : s.isRebuilding = false) (last : ℚ) (hl : s.lastTime = some last) :
    (update now fails s).lastTime = some now := by
  simp only [update, hg, hl, Bool.false_eq_true, if_false]
  rw [foldl_updateOne_lastTime]

theorem update_phases_char (now : ℚ) (fails : WaveName → Bool) (s : AppState)
    (hg : s.isRebuilding = false) (last : ℚ) (hl : s.lastTime = some last) (n : WaveName) :
    (update now fails s).phases n =
      if (s.params n).enabled = true then s.phases n + (now - last) * (s.params n).speed_hz
      else s.phases n := by
  simp only [update, hg, hl, Bool.false_eq_true, if_false]
  cases n <;> simp [waveNames]

theorem update_buffers_failed (now : ℚ) (fails : WaveName → Bool) (s : AppState)
    (hg : s.isRebuilding = false) (last : ℚ) (hl : s.lastTime = some last) (n : WaveName)
    (hf : fails n = true) :
    (update now fails s).lineYBuffers n = s.lineYBuffers n := by
  simp only [update, hg, hl, Bool.false_eq_true, if_false]
  rw [foldl_updateOne_buffers]
  intro m _
  by_cases hmn : m = n
  · subst hmn
    exact Or.inr hf
  · exact Or.inl hmn

/-! Helper lemmas about rebuild, the resets and the UI mutations. -/

@[simp]
theorem createOrRecreateLines_params (s : AppState) :
    (createOrRecreateLines s).params = s.params := rfl

@[simp]
theorem createOrRecreateLines_phases (s : AppState) :
    (createOrRecreateLines s).phases = s.phases := rfl

@[simp]
theorem createOrRecreateLines_t (s : AppState) :
    (createOrRecreateLines s).t = s.t := rfl

@[simp]
theorem createOrRecreateLines_currentNPoints (s : AppState) :
    (createOrRecreateLines s).currentNPoints = s.currentNPoints := rfl

@[simp]
theorem createOrRecreateLines_lastTime (s : AppState) :
    (createOrRecreateLines s).lastTime = s.lastTime := rfl

@[simp]
theorem createOrRecreateLines_isRebuilding (s : AppState) :
    (createOrRecreateLines s).isRebuilding = s.isRebuilding := rfl

theorem rebuildWithPoints_noop (newN0 : Int) (midFails : Bool) (s : AppState)
    (h : max 2 newN0 = (s.currentNPoints : Int)) :
    rebuildWithPoints newN0 midFails s = (s, true) := by
  simp [rebuildWithPoints, h]

theorem rebuildWithPoints_changed_t (newN0 : Int) (midFails : Bool) (s : AppState)
    (h : max 2 newN0 ≠ (s.currentNPoints : Int)) :
    (rebuildWithPoints newN0 midFails s).1.t = linspace (max 2 newN0).toNat := by
  simp only [rebuildWithPoints, h, if_false]
  cases midFails <;> simp [rebuildIntermediate]

theorem rebuildWithPoints_changed_currentNPoints (newN0 : Int) (midFails : Bool) (s : AppState)
    (h : max 2 newN0 ≠ (s.currentNPoints : Int)) :
    (rebuildWithPoints newN0 midFails s).1.currentNPoints = (max 2 newN0).toNat := by
  simp only [rebuildWithPoints, h, if_false]
  cases midFails <;> simp [rebuildIntermediate]

theorem rebuildWithPoints_params (newN0 : Int) (midFails : Bool) (s : AppState) :
    (rebuildWithPoints newN0 midFails s).1.params = s.params := by
  by_cases h : max 2 newN0 = (s.currentNPoints : Int)
  · rw [rebuildWithPoints_noop _ _ _ h]
  · simp only [rebuildWithPoints, h, if_false]
    cases midFails <;> simp [rebuildIntermediate]

theorem rebuildWithPoints_phases (newN0 : Int) (midFails : Bool) (s : AppState) :
    (rebuildWithPoints newN0 midFails s).1.phases = s.phases := by
  by_cases h : max 2 newN0 = (s.currentNPoints : Int)
  · rw [rebuildWithPoints_noop _ _ _ h]
  · simp only [rebuildWithPoints, h, if_false]
    cases midFails <;> simp [rebuildIntermediate]

theorem rebuildWithPoints_lastTime (newN0 : Int) (midFails : Bool) (s : AppState) :
    (rebuildWithPoints newN0 midFails s).1.lastTime = s.lastTime := by
  by_cases h : max 2 newN0 = (s.currentNPoints : Int)
  · rw [rebuildWithPoints_noop _ _ _ h]
  · simp only [rebuildWithPoints, h, if_false]
    cases midFails <;> simp [rebuildIntermediate]

theorem rebuildWithPoints_isRebuilding (newN0 : Int) (midFails : Bool) (s : AppState)
    (hg : s.isRebuilding = false) :
    (rebuildWithPoints newN0 midFails s).1.isRebuilding = false := by
  by_cases h : max 2 newN0 = (s.currentNPoints : Int)
  · rw [rebuildWithPoints_noop _ _ _ h, hg]
  · simp only [rebuildWithPoints, h, if_false]

theorem rebuildWithPoints_snd (newN0 : Int) (midFails : Bool) (s : AppState)
    (h : max 2 newN0 ≠ (s.currentNPoints : Int)) :
    (rebuildWithPoints newN0 midFails s).2 = !midFails := by
  simp only [rebuildWithPoints, h, if_false]

/-! Helper lemmas about the sample grid. -/

theorem linspace_length (n : Nat) : (linspace n).length = n := by
  rw [linspace, List.length_map, List.length_range]

theorem linspace_getD (n i : Nat) (h : i < n) :
    (linspace n).getD i 0 = (i : ℚ) / ((n : ℚ) - 1) := by
  have hl : i < (linspace n).length := by rwa [linspace_length]
  rw [List.getD_eq_getElem _ _ hl]
  simp only [linspace, List.getElem_map, List.getElem_range]

theorem linspace_chain (n : Nat) :
    (linspace n).Chain' (fun a b => b - a = 1 / ((n : ℚ) - 1)) := by
  rw [linspace, List.chain'_map]
  rcases n with _ | m
  · exact List.chain'_nil
  · rw [List.chain'_range_succ]
    intro i hi
    push_cast
    ring

theorem linspace_pairwise (n : Nat) (hn : 2 ≤ n) :
    (linspace n).Pairwise (fun a b => a < b) := by
  have hd : (0 : ℚ) < ((n : ℚ) - 1) := by
    have h2 : (2 : ℚ) ≤ (n : ℚ) := by exact_mod_cast hn
    linarith
  rw [linspace, List.pairwise_map]
  refine (List.pairwise_lt_range n).imp ?_
  intro a b hab
  have hcast : (a : ℚ) < (b : ℚ) := by exact_mod_cast hab
  exact div_lt_div_of_pos_right hcast hd

theorem linspace_first (n : Nat) (hn : 2 ≤ n) : (linspace n).getD 0 0 = 0 := by
  rw [linspace_getD n 0 (by omega)]
  simp

theorem linspace_last (n : Nat) (hn : 2 ≤ n) : (linspace n).getD (n - 1) 0 = 1 := by
  rw [linspace_getD n (n - 1) (by omega)]
  have hd : ((n : ℚ) - 1) ≠ 0 := by
    have h2 : (2 : ℚ) ≤ (n : ℚ) := by exact_mod_cast hn
    intro hc
    linarith
  have hcast : ((n - 1 : Nat) : ℚ) = (n : ℚ) - 1 := by
    have h1 : 1 ≤ n := by omega
    push_cast [h1]
    ring
  rw [hcast]
  field_simp

theorem gridInvariant_of_linspace (s : AppState) (n : Nat) (hn : 2 ≤ n)
    (ht : s.t = linspace n) (hc : s.currentNPoints = n) : gridInvariant s := by
  refine ⟨?_, ?_, ?_, ?_, ?_, ?_⟩
  · rw [ht, hc, linspace_length]
  · rw [hc]
    exact hn
  · rw [ht]
    exact linspace_first n hn
  · rw [ht, hc]
    exact linspace_last n hn
  · rw [ht, hc]
    exact linspace_chain n
  · rw [ht]
    exact linspace_pairwise n hn

theorem gridInvariant_congr (s s2 : AppState) (ht : s2.t = s.t)
    (hc : s2.currentNPoints = s.currentNPoints) (h : gridInvariant s) : gridInvariant s2 := by
  unfold gridInvariant at h ⊢
  rw [ht, hc]
  exact h

/-! Claim theorems. -/

/-- C3: for every waveform kind, grid and phase, `evaluate` returns a
value-array of the same length as the grid whose i-th element is the kind's
closed-form rule at t = grid[i] + phase (Sine a*sin(2πft), Square
a*sign(sin(2πft)), Triangle a*(2/π)*asin(sin(2πft)), Sawtooth
a*2*(f*t - floor(0.5 + f*t))) shifted by the vertical offset; as a Lean
function it is pure and total over all real inputs, with no error value and
no side effects. -/
theorem evaluate_pointwise (k : WaveName) (f a off : ℝ) (grid : List ℝ) (phase : ℝ) :
    (evaluate k f a off grid phase).length = grid.length ∧
    ∀ i, i < grid.length →
      (evaluate k f a off grid phase).getD i 0 =
        (match k with
          | WaveName.Sine => a * Real.sin (2 * Real.pi * f * (grid.getD i 0 + phase))
          | WaveName.Square => a * Real.sign (Real.sin (2 * Real.pi * f * (grid.getD i 0 + phase)))
          | WaveName.Triangle =>
              a * (2 / Real.pi) * Real.arcsin (Real.sin (2 * Real.pi * f * (grid.getD i 0 + phase)))
          | WaveName.Sawtooth =>
              a * 2 * (f * (grid.getD i 0 + phase) -
                ((Int.floor (0.5 + f * (grid.getD i 0 + phase)) : ℤ) : ℝ))) + off := by
  constructor
  · rw [evaluate, List.length_map]
  · intro i hi
    have hl : i < (evaluate k f a off grid phase).length := by
      rw [evaluate, List.length_map]
      exact hi
    rw [List.getD_eq_getElem _ _ hl, List.getD_eq_getElem _ _ hi]
    simp only [evaluate, List.getElem_map]
    cases k
    · rfl
    · rfl
    · show _ * 2 * _ / _ + off = _
      ring_nf
    · show _ * 2 * (_ * f - _) + off = _
      ring_nf

/-- Witness for C3 at kind Sine, grid [0], phase 0. -/
theorem evaluate_pointwise_witness :
    (0 : Nat) < ([(0 : ℝ)]).length ∧
    (evaluate WaveName.Sine 1 1 0 [(0 : ℝ)] 0).getD 0 0 =
      1 * Real.sin (2 * Real.pi * 1 * (([(0 : ℝ)]).getD 0 0 + 0)) + 0 :=
  ⟨by decide, (evaluate_pointwise WaveName.Sine 1 1 0 [(0 : ℝ)] 0).2 0 (by decide)⟩

/-- C8: every waveform rule, at frequency f and amplitude a, is periodic in
t with period 1/f. -/
theorem evalRule_periodic (k : WaveName) (f a t : ℝ) (hf : f ≠ 0) :
    evalRule k f a (t + 1 / f) = evalRule k f a t := by
  have key : 2 * Real.pi * f * (t + 1 / f) = 2 * Real.pi * f * t + 2 * Real.pi := by
    field_simp
    ring
  cases k
  · simp only [evalRule, key, Real.sin_add_two_pi]
  · simp only [evalRule, key, Real.sin_add_two_pi]
  · simp only [evalRule, key, Real.sin_add_two_pi]
  · simp only [evalRule]
    have h1 : (t + 1 / f) * f = t * f + 1 := by
      field_simp
    have h2 : (0.5 : ℝ) + (t * f + 1) = (0.5 + t * f) + 1 := by ring
    rw [h1, h2, Int.floor_add_one]
    push_cast
    ring

/-- Witness for C8 at kind Sine, f = 5, a = 5, t = 0. -/
theorem evalRule_periodic_witness :
    (5 : ℝ) ≠ 0 ∧ evalRule WaveName.Sine 5 5 (0 + 1 / 5) = evalRule WaveName.Sine 5 5 0 :=
  ⟨by norm_num, evalRule_periodic WaveName.Sine 5 5 0 (by norm_num)⟩

/-- C1 counterexample: a tick at now = 1 from the default 4-point state with
lastTimestamp 0, whose buffer write raises for every waveform, still leaves
the Sine phase different from its pre-tick value (it moves from 0 to 1/2),
refuting the claim that a failing buffer write mutates no waveform state. -/
theorem update_write_failure_cex :
    (update 1 (fun _ => true) sampleState).phases WaveName.Sine ≠
      sampleState.phases WaveName.Sine := by
  rw [update_phases_char 1 (fun _ => true) sampleState rfl 0 rfl WaveName.Sine]
  norm_num [sampleState, waveformDefaults, defaultSpeedHz]

/-- C1 amended: when the buffer write for a waveform raises during a tick,
the exception is caught (the tick completes as a total function), that
waveform's render buffer is unchanged for the frame, and parameters and grid
are untouched — but the phase advance that precedes the write is not rolled
back: an enabled waveform's phase still becomes its pre-tick value plus
dt * speed. -/
theorem update_write_failure (now : ℚ) (fails : WaveName → Bool) (s : AppState)
    (hg : s.isRebuilding = false) (last : ℚ) (hl : s.lastTime = some last) (n : WaveName)
    (hf : fails n = true) :
    (update now fails s).lineYBuffers n = s.lineYBuffers n ∧
    (update now fails s).params = s.params ∧
    (update now fails s).t = s.t ∧
    ((s.params n).enabled = true →
      (update now fails s).phases n = s.phases n + (now - last) * (s.params n).speed_hz) := by
  refine ⟨update_buffers_failed now fails s hg last hl n hf, update_params now fails s,
    update_t now fails s, ?_⟩
  intro hn
  rw [update_phases_char now fails s hg last hl n, if_pos hn]

/-- Witness for C1 amended: the failing tick at now = 1 on the default
4-point state with lastTimestamp 0, at waveform Sine. -/
theorem update_write_failure_witness :
    sampleState.isRebuilding = false ∧ sampleState.lastTime = some 0 ∧
    (fun _ : WaveName => true) WaveName.Sine = true ∧
    ((update 1 (fun _ => true) sampleState).lineYBuffers WaveName.Sine =
       sampleState.lineYBuffers WaveName.Sine ∧
     (update 1 (fun _ => true) sampleState).params = sampleState.params ∧
     (update 1 (fun _ => true) sampleState).t = sampleState.t ∧
     ((sampleState.params WaveName.Sine).enabled = true →
       (update 1 (fun _ => true) sampleState).phases WaveName.Sine =
         sampleState.phases WaveName.Sine +
           (1 - 0) * (sampleState.params WaveName.Sine).speed_hz)) :=
  ⟨rfl, rfl, rfl, update_write_failure 1 (fun _ => true) sampleState rfl 0 rfl WaveName.Sine rfl⟩

/-- C2 counterexample: a rebuild that changes the point count (from the
4-point state to 8 points) leaves lastTimestamp at its old non-null value
some 0, refuting the claim that lastTimestamp is null after any rebuild that
changes the point count. -/
theorem rebuild_lastTime_cex :
    max 2 (8 : Int) ≠ (sampleState.currentNPoints : Int) ∧
    (rebuildWithPoints 8 false sampleState).1.lastTime ≠ none := by
  constructor
  · decide
  · rw [rebuildWithPoints_lastTime]
    decide

/-- C2 amended: after any per-waveform reset and after global reset (with or
without a mid-rebuild error), lastTimestamp is null, so the next tick takes
the synchronization branch; a rebuild, by contrast, leaves lastTimestamp
exactly as it was — only the resets null it. -/
theorem reset_lastTime_null (n : WaveName) (s : AppState) (midFails : Bool) (newN0 : Int) :
    (resetWaveform n s).lastTime = none ∧
    (resetAll midFails s).1.lastTime = none ∧
    (rebuildWithPoints newN0 midFails s).1.lastTime = s.lastTime := by
  refine ⟨rfl, ?_, rebuildWithPoints_lastTime newN0 midFails s⟩
  unfold resetAll
  rw [rebuildWithPoints_lastTime]

/-- C4: a tick taken with the rebuilding guard clear and a non-null
lastTimestamp, with dt = now - last, advances every enabled waveform's phase
by dt * speed, leaves every disabled waveform's phase unchanged (frozen, to
resume from that value on re-enable), and records now as the new
lastTimestamp. -/
theorem update_phase_semantics (now : ℚ) (fails : WaveName → Bool) (s : AppState)
    (hg : s.isRebuilding = false) (last : ℚ) (hl : s.lastTime = some last) :
    (∀ n, (s.params n).enabled = true →
       (update now fails s).phases n = s.phases n + (now - last) * (s.params n).speed_hz) ∧
    (∀ n, (s.params n).enabled = false →
       (update now fails s).phases n = s.phases n) ∧
    (update now fails s).lastTime = some now ∧
    (∀ m b, (setEnabled m b s).phases = s.phases) := by
  refine ⟨?_, ?_, update_lastTime_some now fails s hg last hl, fun m b => rfl⟩
  · intro n hn
    rw [update_phases_char now fails s hg last hl n, if_pos hn]
  · intro n hn
    rw [update_phases_char now fails s hg last hl n, hn]
    simp

/-- Witness for C4: from the default state with lastTimestamp 0, a tick at
now = 1 (dt = 1.0 s) with the default speed_hz = 0.5 brings the Sine phase
from 0 to 0.5. -/
theorem update_phase_semantics_witness :
    sampleState.isRebuilding = false ∧ sampleState.lastTime = some 0 ∧
    (sampleState.params WaveName.Sine).enabled = true ∧
    (update 1 (fun _ => false) sampleState).phases WaveName.Sine = 1 / 2 := by
  refine ⟨rfl, rfl, rfl, ?_⟩
  have h := (update_phase_semantics 1 (fun _ => false) sampleState rfl 0 rfl).1 WaveName.Sine rfl
  rw [h]
  norm_num [sampleState, waveformDefaults, defaultSpeedHz]

/-- C6: during a non-no-op rebuild the guard is true in the intermediate
state in which the grid has been replaced, the final state has the guard
false on every exit path (also when line recreation raises mid-rebuild), and
a tick invoked while the guard is set returns the state entirely unchanged:
no timestamp read or write, no phase advance, no buffer write. -/
theorem rebuild_guard_semantics (newN : Nat) (newN0 : Int) (midFails : Bool) (s : AppState)
    (hg : s.isRebuilding = false) (now : ℚ) (fails : WaveName → Bool) (s2 : AppState)
    (hg2 : s2.isRebuilding = true) :
    (rebuildIntermediate newN s).isRebuilding = true ∧
    (rebuildWithPoints newN0 midFails s).1.isRebuilding = false ∧
    update now fails s2 = s2 :=
  ⟨rfl, rebuildWithPoints_isRebuilding newN0 midFails s hg,
    update_of_isRebuilding now fails s2 hg2⟩

/-- Witness for C6: rebuild to 8 points with a mid-rebuild error from the
4-point state, and a tick on that state with the guard set. -/
theorem rebuild_guard_semantics_witness :
    sampleState.isRebuilding = false ∧
    ({ sampleState with isRebuilding := true } : AppState).isRebuilding = true ∧
    ((rebuildIntermediate 8 sampleState).isRebuilding = true ∧
     (rebuildWithPoints 8 true sampleState).1.isRebuilding = false ∧
     update 1 (fun _ => false) { sampleState with isRebuilding := true } =
       { sampleState with isRebuilding := true }) :=
  ⟨rfl, rfl, rebuild_guard_semantics 8 8 true sampleState rfl 1 (fun _ => false) _ rfl⟩

/-- C5: rebuild clamps the requested count to a minimum of 2 and is a
complete no-op exactly when the clamped count equals the current one (the
whole state is returned unchanged — no grid regeneration, no graphic
recreation, no guard toggling); otherwise it replaces the grid with the
clamped number of evenly spaced values from 0 to 1 and updates the point
count; rebuild(0) and rebuild(1) both give a 2-point grid; and no other
operation (tick, parameter mutation, the enabled checkbox, per-waveform
reset) ever touches the grid. -/
theorem rebuild_clamp_noop (newN0 : Int) (midFails : Bool) (s : AppState) :
    (max 2 newN0 = (s.currentNPoints : Int) → rebuildWithPoints newN0 midFails s = (s, true)) ∧
    (max 2 newN0 ≠ (s.currentNPoints : Int) →
      (rebuildWithPoints newN0 midFails s).1.t = linspace (max 2 newN0).toNat ∧
      (rebuildWithPoints newN0 midFails s).1.currentNPoints = (max 2 newN0).toNat ∧
      ((rebuildWithPoints newN0 midFails s).1.t).length = (max 2 newN0).toNat) ∧
    (s.currentNPoints ≠ 2 →
      ((rebuildWithPoints 0 midFails s).1.t).length = 2 ∧
      ((rebuildWithPoints 1 midFails s).1.t).length = 2) ∧
    (∀ now fails, (update now fails s).t = s.t) ∧
    (∀ n fld v, (setParam n fld v s).t = s.t) ∧
    (∀ n b, (setEnabled n b s).t = s.t) ∧
    (∀ n, (resetWaveform n s).t = s.t) := by
  refine ⟨?_, ?_, ?_, ?_, ?_, ?_, ?_⟩
  · intro h
    exact rebuildWithPoints_noop newN0 midFails s h
  · intro h
    exact ⟨rebuildWithPoints_changed_t newN0 midFails s h,
      rebuildWithPoints_changed_currentNPoints newN0 midFails s h,
      by rw [rebuildWithPoints_changed_t newN0 midFails s h, linspace_length]⟩
  · intro h
    have h0 : max 2 (0 : Int) ≠ (s.currentNPoints : Int) := by
      intro hc
      apply h
      omega
    have h1 : max 2 (1 : Int) ≠ (s.currentNPoints : Int) := by
      intro hc
      apply h
      omega
    constructor
    · rw [rebuildWithPoints_changed_t 0 midFails s h0, linspace_length]
      decide
    · rw [rebuildWithPoints_changed_t 1 midFails s h1, linspace_length]
      decide
  · intro now fails
    exact update_t now fails s
  · intro n fld v
    rfl
  · intro n b
    rfl
  · intro n
    rfl

/-- Witness for C5: a no-op rebuild at the current count 4, the clamping of
rebuild(0) to a 2-point grid, and a tick leaving the grid alone, all at the
default 4-point state. -/
theorem rebuild_clamp_noop_witness :
    max 2 (4 : Int) = (sampleState.currentNPoints : Int) ∧
    rebuildWithPoints 4 false sampleState = (sampleState, true) ∧
    sampleState.currentNPoints ≠ 2 ∧
    ((rebuildWithPoints 0 false sampleState).1.t).length = 2 ∧
    (update 1 (fun _ => false) sampleState).t = sampleState.t :=
  ⟨by decide, (rebuild_clamp_noop 4 false sampleState).1 (by decide), by decide,
    ((rebuild_clamp_noop 0 false sampleState).2.2.1 (by decide)).1,
    (rebuild_clamp_noop 0 false sampleState).2.2.2.1 1 (fun _ => false)⟩

/-- C7: global reset restores every waveform's frequency, amplitude, offset
and speed to the recorded defaults with enabled set true, zeroes every phase
accumulator, nulls lastTimestamp, restores the point count to the default,
and regenerates the grid exactly when the default point count differs from
the current one (otherwise the grid is untouched). -/
theorem resetAll_semantics (s : AppState) :
    (∀ n, (resetAll false s).1.params n = waveformDefaults n) ∧
    (∀ n, (resetAll false s).1.phases n = 0) ∧
    (resetAll false s).1.lastTime = none ∧
    (resetAll false s).1.currentNPoints = defaultNPoints ∧
    (s.currentNPoints = defaultNPoints → (resetAll false s).1.t = s.t) ∧
    (s.currentNPoints ≠ defaultNPoints → (resetAll false s).1.t = linspace defaultNPoints) := by
  have hmax : max 2 ((defaultNPoints : Nat) : Int) = ((defaultNPoints : Nat) : Int) := by
    rw [defaultNPoints]
    decide
  refine ⟨?_, ?_, ?_, ?_, ?_, ?_⟩
  · intro n
    unfold resetAll
    rw [rebuildWithPoints_params]
  · intro n
    unfold resetAll
    rw [rebuildWithPoints_phases]
  · unfold resetAll
    rw [rebuildWithPoints_lastTime]
  · by_cases h : s.currentNPoints = defaultNPoints
    · unfold resetAll
      rw [rebuildWithPoints_noop]
      · exact h
      · rw [hmax]
        exact_mod_cast congrArg (fun m : Nat => (m : Int)) h.symm
    · unfold resetAll
      rw [rebuildWithPoints_changed_currentNPoints]
      · rw [hmax]
        simp
      · rw [hmax]
        intro hc
        exact h (by exact_mod_cast hc.symm)
  · intro h
    unfold resetAll
    rw [rebuildWithPoints_noop]
    rw [hmax]
    exact_mod_cast congrArg (fun m : Nat => (m : Int)) h.symm
  · intro h
    unfold resetAll
    rw [rebuildWithPoints_changed_t]
    · rw [hmax]
      simp
    · rw [hmax]
      intro hc
      exact h (by exact_mod_cast hc.symm)

/-- Witness for C7: global reset from the 4-point state, whose count differs
from the default, so the grid is regenerated at the default count. -/
theorem resetAll_semantics_witness :
    (resetAll false sampleState).1.lastTime = none ∧
    (resetAll false sampleState).1.currentNPoints = defaultNPoints ∧
    sampleState.currentNPoints ≠ defaultNPoints ∧
    (resetAll false sampleState).1.t = linspace defaultNPoints :=
  ⟨(resetAll_semantics sampleState).2.2.1, (resetAll_semantics sampleState).2.2.2.1,
    by decide, (resetAll_semantics sampleState).2.2.2.2.2 (by decide)⟩

/-- C9: a completed rebuild that changes the point count mutates only the
grid, the point count and the render-bound objects: every waveform's phase
accumulator, all its parameters (frequency, amplitude, offset, speed,
enabled flag) and lastTimestamp are identical before and after, so the
animation resumes from the same phases. -/
theorem rebuild_preserves_animation_state (newN0 : Int) (s : AppState)
    (h : max 2 newN0 ≠ (s.currentNPoints : Int)) :
    (rebuildWithPoints newN0 false s).1.phases = s.phases ∧
    (rebuildWithPoints newN0 false s).1.params = s.params ∧
    (rebuildWithPoints newN0 false s).1.lastTime = s.lastTime ∧
    (rebuildWithPoints newN0 false s).1.currentNPoints = (max 2 newN0).toNat :=
  ⟨rebuildWithPoints_phases newN0 false s, rebuildWithPoints_params newN0 false s,
    rebuildWithPoints_lastTime newN0 false s,
    rebuildWithPoints_changed_currentNPoints newN0 false s h⟩

/-- Witness for C9: the rebuild from 4 to 8 points on the default state. -/
theorem rebuild_preserves_animation_state_witness :
    max 2 (8 : Int) ≠ (sampleState.currentNPoints : Int) ∧
    ((rebuildWithPoints 8 false sampleState).1.phases = sampleState.phases ∧
     (rebuildWithPoints 8 false sampleState).1.params = sampleState.params ∧
     (rebuildWithPoints 8 false sampleState).1.lastTime = sampleState.lastTime ∧
     (rebuildWithPoints 8 false sampleState).1.currentNPoints = (max 2 (8 : Int)).toNat) :=
  ⟨by decide, rebuild_preserves_animation_state 8 sampleState (by decide)⟩

theorem linspace_four : linspace 4 = [0, 1/3, 2/3, 1] := by
  rw [linspace]
  norm_num [List.range_succ]

theorem gridInvariant_sampleState : gridInvariant sampleState := by
  unfold gridInvariant
  have ht : sampleState.t = [0, 1/3, 2/3, 1] := linspace_four
  have hc : sampleState.currentNPoints = 4 := rfl
  rw [ht, hc]
  refine ⟨rfl, by omega, rfl, ?_, ?_, ?_⟩
  · norm_num
  · norm_num [List.chain'_cons]
  · norm_num [List.pairwise_cons]

/-- C10: the grid invariant — the grid has exactly currentNPoints elements,
the count is at least 2, and the grid is the evenly spaced strictly
increasing sequence from 0 to 1 — holds at startup and is preserved by tick,
every UI parameter mutation, the enabled checkbox, per-waveform reset,
global reset and rebuild. -/
theorem gridInvariant_preserved :
    gridInvariant initState ∧
    (∀ s now fails, gridInvariant s → gridInvariant (update now fails s)) ∧
    (∀ s n fld v, gridInvariant s → gridInvariant (setParam n fld v s)) ∧
    (∀ s n b, gridInvariant s → gridInvariant (setEnabled n b s)) ∧
    (∀ s n, gridInvariant s → gridInvariant (resetWaveform n s)) ∧
    (∀ s midFails, gridInvariant s → gridInvariant (resetAll midFails s).1) ∧
    (∀ s newN0 midFails, gridInvariant s → gridInvariant (rebuildWithPoints newN0 midFails s).1) := by
  have hrebuild : ∀ (s : AppState) (newN0 : Int) (midFails : Bool),
      gridInvariant s → gridInvariant (rebuildWithPoints newN0 midFails s).1 := by
    intro s newN0 midFails h
    by_cases hc : max 2 newN0 = (s.currentNPoints : Int)
    · rw [rebuildWithPoints_noop newN0 midFails s hc]
      exact h
    · refine gridInvariant_of_linspace _ (max 2 newN0).toNat ?_
        (rebuildWithPoints_changed_t newN0 midFails s hc)
        (rebuildWithPoints_changed_currentNPoints newN0 midFails s hc)
      omega
  refine ⟨?_, ?_, ?_, ?_, ?_, ?_, hrebuild⟩
  · apply gridInvariant_of_linspace initState defaultNPoints
    · rw [defaultNPoints]
      omega
    · unfold initState
      rw [createOrRecreateLines_t]
    · unfold initState
      rw [createOrRecreateLines_currentNPoints]
  · intro s now fails h
    exact gridInvariant_congr s _ (update_t now fails s) (update_currentNPoints now fails s) h
  · intro s n fld v h
    exact gridInvariant_congr s _ rfl rfl h
  · intro s n b h
    exact gridInvariant_congr s _ rfl rfl h
  · intro s n h
    exact gridInvariant_congr s _ rfl rfl h
  · intro s midFails h
    unfold resetAll
    apply hrebuild
    exact gridInvariant_congr s _ rfl rfl h

/-- Witness for C10: the invariant holds at the 4-point state and is carried
through a tick there. -/
theorem gridInvariant_preserved_witness :
    gridInvariant sampleState ∧ gridInvariant (update 1 (fun _ => false) sampleState) :=
  ⟨gridInvariant_sampleState,
    gridInvariant_preserved.2.1 sampleState 1 (fun _ => false) gridInvariant_sampleState⟩
